import Mathlib

/-!
# Verification of ApartmentPriceChecker

A shallow embedding of the two scripts of the repository
(`src/main.py`, the SMS/Twilio variant, and `src/emailNotifications.py`,
the email variant) together with proofs of the specification's claims.

Modelling conventions:
* Python strings are `List Char` (`PyStr`).
* Python floats are exact rationals `ℚ`.  Every price this program produces
  comes from `float(digit_string)` for a comma-stripped digit string, so it
  is a non-negative integer value; the decision logic is pure order
  comparison, for which `ℚ` agrees with IEEE comparison on finite values.
* The state file (`last_notified_price.txt` resp.
  `last_notified_price_email.txt`) is `FileState := Option PyStr`:
  `none` means the file does not exist, `some content` is its text.
* External effects (HTTP fetch, BeautifulSoup parsing, SMTP, Twilio) are
  inputs to the orchestrator: the fetched/selected text arrives as an
  `Except`/`Option` argument and transport success as a `Bool` argument.
-/

abbrev PyStr := List Char

/-- The state file: `none` = file absent, `some content` = file text. -/
abbrev FileState := Option PyStr

/-- Python `\s` whitespace characters (the ASCII ones). -/
def isPySpace (c : Char) : Bool :=
  c = ' ' || c = '\t' || c = '\n' || c = '\r' || c = Char.ofNat 11 || c = Char.ofNat 12

/-- Python `str.strip()`: drop leading and trailing whitespace. -/
def pyStrip (s : PyStr) : PyStr :=
  ((s.dropWhile isPySpace).reverse.dropWhile isPySpace).reverse

/-! ## The currency regex  `\$\s*([0-9]{1,3}(?:,[0-9]{3})*)`

Both scripts extract the price with
`re.search(r"\$\s*([0-9]{1,3}(?:,[0-9]{3})*)", text)`.
Nothing in the pattern follows the capturing group, so greedy matching
with no backtracking is the exact semantics: at a `$`, skip whitespace,
take up to three digits greedily (at least one), then as many `,ddd`
groups as possible.  `re.search` returns the match at the leftmost
position where one exists. -/

/-- Greedily take at most `k` leading digits. Returns (digits, rest). -/
def takeDigitsUpTo : Nat → PyStr → PyStr × PyStr
  | 0, cs => ([], cs)
  | _ + 1, [] => ([], [])
  | k + 1, c :: cs =>
    if c.isDigit then
      let (ds, r) := takeDigitsUpTo k cs
      (c :: ds, r)
    else ([], c :: cs)

/-- Greedily match `(?:,[0-9]{3})*`. Returns (matched chars, rest). -/
def commaGroups : PyStr → PyStr × PyStr
  | ',' :: d1 :: d2 :: d3 :: rest =>
    if d1.isDigit && d2.isDigit && d3.isDigit then
      let (gs, r) := commaGroups rest
      (',' :: d1 :: d2 :: d3 :: gs, r)
    else ([], ',' :: d1 :: d2 :: d3 :: rest)
  | cs => ([], cs)

/-- Match the currency pattern anchored at the start of `cs`; on success
return the text of capturing group 1 (digits and commas). -/
def matchPriceAt : PyStr → Option PyStr
  | '$' :: rest =>
    let afterSpace := rest.dropWhile isPySpace
    let (ds, rest2) := takeDigitsUpTo 3 afterSpace
    if ds.isEmpty then none
    else some (ds ++ (commaGroups rest2).1)
  | _ => none

/-- `re.search` of the currency pattern: group 1 of the leftmost match. -/
def searchPrice : PyStr → Option PyStr
  | [] => none
  | c :: cs =>
    match matchPriceAt (c :: cs) with
    | some g => some g
    | none => searchPrice cs

/-- Numeric value of a digit character. -/
def digitVal (c : Char) : Nat := c.toNat - '0'.toNat

/-- Value of a digit string, most significant first (Python `float` /
`int` of a plain digit string, exactly). -/
def digitsToNat (ds : PyStr) : Nat := ds.foldl (fun a c => 10 * a + digitVal c) 0

/-- `match.group(1).replace(",", "")`. -/
def stripCommas (g : PyStr) : PyStr := g.filter (fun c => c ≠ ',')

/-- The shared tail of both `get_current_price` functions: run the currency
regex over `text`; no match raises `ValueError` (modelled as `.error`),
otherwise the comma-stripped captured digits are parsed as a float.  A
captured group is digits-and-commas only, so the value is a cast natural
number. -/
def extractPriceFromText (text : PyStr) : Except String ℚ :=
  match searchPrice text with
  | none => .error "Could not find a price on the page."
  | some g => .ok ((digitsToNat (stripCommas g) : ℕ) : ℚ)

/-! ## Python `float()` on the state-file content

`get_last_notified_price` does `float(content)` under `try/except`.
We model the decimal forms relevant to this program: an optional sign,
an integer part and an optional `.`-separated fractional part (at least
one digit overall) — exactly the shape `str(float)` writes back.
Exponent forms, `inf`/`nan` and underscore separators are not modelled;
they only widen the set of parseable strings, and every string this
program itself writes is of the modelled shape. -/

/-- Split an optional leading sign: returns (isNegative, rest). -/
def splitSign (s : PyStr) : Bool × PyStr :=
  match s with
  | [] => (false, [])
  | c :: r => if c = '-' then (true, r) else if c = '+' then (false, r) else (false, s)

/-- Syntactic half of `float(s)`: recognise `[sign] digits [. digits]`
(at least one digit overall) and return the sign flag, the integer-part
digits and the fractional-part digits; `none` models a raised
`ValueError`.  A plain integer string is the case `fp = []`. -/
def parseFloatParts? (s : PyStr) : Option (Bool × PyStr × PyStr) :=
  let (neg, s1) := splitSign s
  let ip := s1.takeWhile Char.isDigit
  let rest := s1.dropWhile Char.isDigit
  match rest with
  | [] => if ip.isEmpty then none else some (neg, ip, [])
  | '.' :: rest2 =>
    let fp := rest2.takeWhile Char.isDigit
    let rest3 := rest2.dropWhile Char.isDigit
    if rest3.isEmpty && !(ip.isEmpty && fp.isEmpty) then some (neg, ip, fp)
    else none
  | _ => none

/-- Numeric value of a recognised decimal string:
`±(ip + fp / 10 ^ |fp|)`. -/
def partsVal (neg : Bool) (ip fp : PyStr) : ℚ :=
  (if neg then -1 else 1) *
    ((digitsToNat ip : ℕ) + (digitsToNat fp : ℕ) / (10 : ℚ) ^ fp.length)

/-- Model of Python `float(s)` on plain decimal strings: `none` models a
raised `ValueError`. -/
def parseFloat? (s : PyStr) : Option ℚ :=
  (parseFloatParts? s).map fun p => partsVal p.1 p.2.1 p.2.2

/-! ## Decimal rendering: Python `str(price)`

`set_last_notified_price` writes `str(price)` where `price` is always a
float holding a non-negative integer (it comes from price extraction).
`str` of such a float is the digits followed by `".0"`.  For completeness
the renderer also covers negative integral values (sign prefix) and
non-integral rationals (truncated 17-place fractional expansion — such
values are unreachable from this program and appear in no theorem). -/

/-- Decimal digits of `n`, most significant first (fuel-structured so the
kernel can evaluate it; `fuel = n + 1` always suffices). -/
def natReprAux : Nat → Nat → PyStr
  | 0, _ => []
  | fuel + 1, n =>
    if n < 10 then [Nat.digitChar n]
    else natReprAux fuel (n / 10) ++ [Nat.digitChar (n % 10)]

/-- Decimal digits of `n`, most significant first. -/
def natRepr (n : Nat) : PyStr := natReprAux (n + 1) n

/-- Up to `k` digits of the fractional expansion of `r / d`, stopping at
remainder zero. -/
def fracDigits (d : Nat) : Nat → Nat → PyStr
  | _, 0 => []
  | r, k + 1 =>
    if r = 0 then []
    else Nat.digitChar (r * 10 / d) :: fracDigits d (r * 10 % d) k

/-- Model of Python `str` on a float value: for the integral values this
program persists, `str(n.0) = "n.0"`. -/
def floatStr (q : ℚ) : PyStr :=
  let sign : PyStr := if q < 0 then ['-'] else []
  if q.den = 1 then sign ++ natRepr q.num.natAbs ++ ['.', '0']
  else
    sign ++ natRepr (q.num.natAbs / q.den) ++
      '.' :: fracDigits q.den (q.num.natAbs % q.den) 17

/-! ## Persisted state (`NotificationState`)

`src/emailNotifications.py` lines 76–87 and `src/main.py` lines 60–71. -/

/-- `get_last_notified_price` of the email variant: absent file → `None`;
unreadable/unparsable content → `None` (the `except` branch). -/
def get_last_notified_price (fs : FileState) : Option ℚ :=
  match fs with
  | none => none
  | some content => parseFloat? (pyStrip content)

/-- `get_last_notified_price` of the SMS variant (`src/main.py`): absent
file → `0`; unparsable content → `0`. The sentinel `0` encodes "never
notified". -/
def get_last_notified_price_sms (fs : FileState) : ℚ :=
  match fs with
  | none => 0
  | some content => (parseFloat? (pyStrip content)).getD 0

/-- `set_last_notified_price`: overwrite the state file with `str(price)`.
Identical in both variants (distinct file paths, same logic). -/
def set_last_notified_price (price : ℚ) : FileState :=
  some (floatStr price)

/-! ## The notification decision (§4.1 `shouldNotify`)

The decision is inline in each `main`: the threshold test
`current_price > PRICE_THRESHOLD` and the history test.
Email variant (lines 99–113): `last_price is not None and
current_price >= last_price` suppresses the notification.
SMS variant (lines 89–100): `last_price != 0 and current_price >=
last_price` suppresses it. -/

/-- The decision of `src/emailNotifications.py`: notify unless the price
is above the threshold or fails to improve on a present last price. -/
def shouldNotify_email (current threshold : ℚ) (last : Option ℚ) : Bool :=
  if threshold < current then false
  else
    match last with
    | some l => if l ≤ current then false else true
    | none => true

/-- The decision of `src/main.py` (SMS): `last = 0` is the "never
notified" sentinel. -/
def shouldNotify_sms (current threshold last : ℚ) : Bool :=
  if threshold < current then false
  else if last ≠ 0 ∧ last ≤ current then false else true

/-- `PRICE_THRESHOLD = float(os.getenv("PRICE_THRESHOLD", "999999"))`:
`none` (unset variable) falls back to the literal `"999999"`; an unset
result models the import-time crash when the value does not parse. -/
def PRICE_THRESHOLD_of (env : Option PyStr) : Option ℚ :=
  parseFloat? (env.getD ['9', '9', '9', '9', '9', '9'])

/-! ## The orchestrators

Each script's `main` is modelled as a function of its external inputs:
configuration completeness flags, the result delivered by the HTTP/HTML
layer, transport success of the notifier, and the state-file content.
It returns the process exit code (Python: an uncaught `SystemExit` or
other exception exits non-zero, a plain `return` from `main` exits 0),
the stdout progress/diagnostic lines (as event tags), the final state
file, and whether a notification was sent. -/

/-- One tag per `print` site / abort site of the two scripts. -/
inductive Msg
  /-- `"Error fetching/parsing price: ..."` -/
  | errorFetching
  /-- `"Current price: ..."` -/
  | currentPrice (p : ℚ)
  /-- `"Price is above threshold (...). No SMS/email sent."` -/
  | aboveThreshold
  /-- `"Price ... is not lower than last notified price ... ."` -/
  | notLower (p l : ℚ)
  /-- `"Sending SMS: ..."` -/
  | sendingSms
  /-- `"Sending email..."` -/
  | sendingEmail
  /-- `"Email sent."` -/
  | emailSent
  /-- `"Failed to send email: ..."` -/
  | failedSendEmail
  /-- `SystemExit("APARTMENT_URL is not set. ...")` (stderr) -/
  | cfgUrlAbort
  /-- `SystemExit("Twilio settings are missing. ...")` (stderr) -/
  | cfgTwilioAbort
deriving DecidableEq, Repr

/-- Result of one run: exit code, printed lines, final state file, and
whether a notification went out. -/
structure RunOut where
  exitCode : Nat
  printed : List Msg
  state : FileState
  notified : Bool
deriving DecidableEq, Repr

/-- `get_current_price` of the email variant.  `urlSet` is whether
`APARTMENT_URL` is set and non-empty; `fetched` is what the HTTP+parsing
layer delivers: an exception (`.error`), or the stripped text of the span
selected by `span[data-jd-fp-adp="display"].jd-fp-strong-text` (`none` if
the selector matched nothing). -/
def get_current_price_email (urlSet : Bool) (fetched : Except String (Option PyStr)) :
    Except String ℚ :=
  if !urlSet then .error "APARTMENT_URL is not set. Check your .env file."
  else
    match fetched with
    | .error e => .error e
    | .ok none => .error "Price element not found with selector"
    | .ok (some text) =>
      if text.isEmpty then .error "Price element not found with selector"
      else extractPriceFromText text

/-- `get_current_price` of the SMS variant: the currency regex over the
whole page text (`soup.get_text(" ", strip=True)`), delivered by the
HTTP+parsing layer as `fetched`. -/
def get_current_price_sms (fetched : Except String PyStr) : Except String ℚ :=
  match fetched with
  | .error e => .error e
  | .ok text => extractPriceFromText text

/-- `main` of `src/emailNotifications.py`.  `emailCfgOk` is the
completeness check inside `send_email` (line 62); `transportOk` is
whether the SMTP session succeeds.  There is no startup configuration
check in this variant: every failure is caught and the function returns
normally (exit code 0). -/
def mainEmail (threshold : ℚ) (urlSet : Bool) (fetched : Except String (Option PyStr))
    (emailCfgOk transportOk : Bool) (fs : FileState) : RunOut :=
  match get_current_price_email urlSet fetched with
  | .error _ => ⟨0, [.errorFetching], fs, false⟩
  | .ok current =>
    if threshold < current then ⟨0, [.currentPrice current, .aboveThreshold], fs, false⟩
    else
      let last := get_last_notified_price fs
      let send : RunOut :=
        if emailCfgOk && transportOk then
          ⟨0, [.currentPrice current, .sendingEmail, .emailSent],
            set_last_notified_price current, true⟩
        else ⟨0, [.currentPrice current, .sendingEmail, .failedSendEmail], fs, false⟩
      match last with
      | some l =>
        if l ≤ current then ⟨0, [.currentPrice current, .notLower current l], fs, false⟩
        else send
      | none => send

/-- `main` of `src/main.py` (SMS).  Startup checks: unset `APARTMENT_URL`
or incomplete Twilio settings raise `SystemExit` (exit code 1) before
anything else runs.  `send_sms` is NOT inside a `try`: a Twilio failure
(`smsOk = false`) propagates as an uncaught exception (exit code 1) and
`set_last_notified_price` is never reached. -/
def mainSMS (threshold : ℚ) (urlSet twilioCfgOk : Bool) (fetched : Except String PyStr)
    (smsOk : Bool) (fs : FileState) : RunOut :=
  if !urlSet then ⟨1, [.cfgUrlAbort], fs, false⟩
  else if !twilioCfgOk then ⟨1, [.cfgTwilioAbort], fs, false⟩
  else
    match get_current_price_sms fetched with
    | .error _ => ⟨0, [.errorFetching], fs, false⟩
    | .ok current =>
      if threshold < current then ⟨0, [.currentPrice current, .aboveThreshold], fs, false⟩
      else
        let last := get_last_notified_price_sms fs
        if last ≠ 0 ∧ last ≤ current then
          ⟨0, [.currentPrice current, .notLower current last], fs, false⟩
        else
          if smsOk then
            ⟨0, [.currentPrice current, .sendingSms], set_last_notified_price current, true⟩
          else ⟨1, [.currentPrice current, .sendingSms], fs, false⟩

deriving instance DecidableEq for Except

/-- A parsed plain integer string has the value of its digits. -/
theorem partsVal_int (ip : PyStr) : partsVal false ip [] = (digitsToNat ip : ℚ) := by
  simp [partsVal, digitsToNat]

/-- A parsed string with fractional part `"0"` has the value of its
integer digits. -/
theorem partsVal_zeroFrac (ip : PyStr) : partsVal false ip ['0'] = (digitsToNat ip : ℚ) := by
  have h0 : digitsToNat ['0'] = 0 := by decide
  simp [partsVal, h0]

/-- With `PRICE_THRESHOLD` unset, the parsed default is exactly 999999. -/
theorem PRICE_THRESHOLD_of_unset : PRICE_THRESHOLD_of none = some 999999 := by
  have h : parseFloatParts? ['9', '9', '9', '9', '9', '9'] =
      some (false, ['9', '9', '9', '9', '9', '9'], []) := by decide
  have h2 : digitsToNat ['9', '9', '9', '9', '9', '9'] = 999999 := by decide
  simp [PRICE_THRESHOLD_of, parseFloat?, h, partsVal_int, h2]
example : extractPriceFromText ['$', '2', ',', '6', '7', '1'] = .ok 2671 := by decide
example : extractPriceFromText ['n', 'o', ' ', 'p', 'r', 'i', 'c', 'e'] =
    .error "Could not find a price on the page." := by decide
example : searchPrice ['x', '$', ' ', '1', '2', '3', '4'] = some ['1', '2', '3'] := by decide
example : parseFloat? ['2', '6', '7', '1', '.', '0'] = some 2671 := by
  have h : parseFloatParts? ['2', '6', '7', '1', '.', '0'] =
      some (false, ['2', '6', '7', '1'], ['0']) := by decide
  have h2 : digitsToNat ['2', '6', '7', '1'] = 2671 := by decide
  simp [parseFloat?, h, partsVal_zeroFrac, h2]
example : parseFloat? ['g', 'a', 'r', 'b'] = none := by
  have h : parseFloatParts? ['g', 'a', 'r', 'b'] = none := by decide
  simp [parseFloat?, h]
example : floatStr 2671 = ['2', '6', '7', '1', '.', '0'] := by
  show floatStr (2671 : ℚ) = _
  decide

/-! ## Claim C1: the threshold check is strict -/

/-- Claim C1: for every `currentPrice`, `threshold` and
`lastNotifiedPrice`, the decision returns false whenever
`currentPrice > threshold` (strict), regardless of history, in both
variants; a price exactly equal to the threshold is not rejected by this
check (with no history it notifies). -/
theorem threshold_check_is_strict (c t l : ℚ) (lo : Option ℚ) (h : t < c) :
    shouldNotify_email c t lo = false ∧
    shouldNotify_sms c t l = false ∧
    shouldNotify_email t t none = true ∧
    shouldNotify_sms t t 0 = true := by
  refine ⟨?_, ?_, ?_, ?_⟩ <;>
    simp [shouldNotify_email, shouldNotify_sms, h, lt_irrefl]

/-- Witness for C1 at `current = 2`, `threshold = 1`, history `5`. -/
theorem threshold_check_is_strict_witness :
    (1 : ℚ) < 2 ∧
      (shouldNotify_email 2 1 (some 5) = false ∧
        shouldNotify_sms 2 1 5 = false ∧
        shouldNotify_email 1 1 none = true ∧
        shouldNotify_sms 1 1 0 = true) :=
  ⟨by decide, threshold_check_is_strict 2 1 5 (some 5) (by decide)⟩

/-! ## Claim C2: the history check below the threshold -/

/-- Claim C2: for every `currentPrice ≤ threshold`: with no prior
notification the decision is true; with a present `lastNotifiedPrice`
it is true exactly when `currentPrice < lastNotifiedPrice`.  In the SMS
variant "absent" is the sentinel `0`, so "present" means non-zero. -/
theorem decision_below_threshold (c t l : ℚ) (h : c ≤ t) :
    shouldNotify_email c t none = true ∧
    (shouldNotify_email c t (some l) = true ↔ c < l) ∧
    shouldNotify_sms c t 0 = true ∧
    (l ≠ 0 → (shouldNotify_sms c t l = true ↔ c < l)) := by
  have hnt : ¬ t < c := not_lt.mpr h
  refine ⟨by simp [shouldNotify_email, hnt], ?_, by simp [shouldNotify_sms, hnt], ?_⟩
  · simp only [shouldNotify_email, if_neg hnt]
    by_cases h2 : l ≤ c
    · simp [h2, not_lt.mpr h2]
    · simp [h2, lt_of_not_le h2]
  · intro hl
    simp only [shouldNotify_sms, if_neg hnt]
    by_cases h2 : l ≤ c
    · simp [h2, hl, not_lt.mpr h2]
    · simp [h2, lt_of_not_le h2]

/-- Witness for C2 at `current = 1`, `threshold = 2`, `last = 3`. -/
theorem decision_below_threshold_witness :
    (1 : ℚ) ≤ 2 ∧
      (shouldNotify_email 1 2 none = true ∧
        (shouldNotify_email 1 2 (some 3) = true ↔ (1 : ℚ) < 3) ∧
        shouldNotify_sms 1 2 0 = true ∧
        ((3 : ℚ) ≠ 0 → (shouldNotify_sms 1 2 3 = true ↔ (1 : ℚ) < 3))) :=
  ⟨by decide, decision_below_threshold 1 2 3 (by decide)⟩

/-! ## Claim C3: no repeat notification on an unchanged price -/

/-- Claim C3: a `currentPrice` exactly equal to a present
`lastNotifiedPrice` never notifies, in both variants ("present" in the
SMS variant means the non-sentinel value, i.e. non-zero).  No threshold
hypothesis is needed: equality suppresses the notification whether or
not the price is below the threshold. -/
theorem no_repeat_on_unchanged_price (c t : ℚ) (h : c ≠ 0) :
    shouldNotify_email c t (some c) = false ∧
    shouldNotify_sms c t c = false := by
  constructor
  · simp [shouldNotify_email, le_refl, ite_self]
  · simp [shouldNotify_sms, le_refl, h, ite_self]

/-- Witness for C3 at `current = last = 2671`, `threshold = 3000`. -/
theorem no_repeat_on_unchanged_price_witness :
    (2671 : ℚ) ≠ 0 ∧
      (shouldNotify_email 2671 3000 (some 2671) = false ∧
        shouldNotify_sms 2671 3000 2671 = false) :=
  ⟨by decide, no_repeat_on_unchanged_price 2671 3000 (by decide)⟩

/-! ## Claim C7: extraction is total — non-negative value or error -/

/-- Claim C7: for every page text, price extraction either succeeds with
a non-negative (finite, being a cast natural number) value obtained from
a currency-pattern match, or fails with the distinguishable
`ValueError`; on text with no match it never returns a value — in
particular never a silent zero. -/
theorem extract_ok_nonneg (text : PyStr) (v : ℚ) (hv : extractPriceFromText text = .ok v) :
    0 ≤ v ∧ ∃ g, searchPrice text = some g ∧ v = ((digitsToNat (stripCommas g) : ℕ) : ℚ) := by
  cases hs : searchPrice text with
  | none => simp [extractPriceFromText, hs] at hv
  | some g =>
    simp only [extractPriceFromText, hs, Except.ok.injEq] at hv
    exact ⟨hv ▸ Nat.cast_nonneg _, g, rfl, hv.symm⟩

theorem extraction_nonneg_or_error (text : PyStr) :
    (∀ v, extractPriceFromText text = .ok v →
      0 ≤ v ∧ ∃ g, searchPrice text = some g ∧ v = ((digitsToNat (stripCommas g) : ℕ) : ℚ)) ∧
    (searchPrice text = none →
      extractPriceFromText text = .error "Could not find a price on the page." ∧
      ∀ v, extractPriceFromText text ≠ .ok v) ∧
    (∀ (u : Bool) (f : Except String (Option PyStr)) v,
      get_current_price_email u f = .ok v → 0 ≤ v) ∧
    (∀ (f : Except String PyStr) v, get_current_price_sms f = .ok v → 0 ≤ v) := by
  refine ⟨fun v hv => extract_ok_nonneg text v hv, ?_, ?_, ?_⟩
  · intro hs
    refine ⟨by simp [extractPriceFromText, hs], ?_⟩
    simp [extractPriceFromText, hs]
  · intro u f v hv
    cases u with
    | false => simp [get_current_price_email] at hv
    | true =>
      cases f with
      | error e => simp [get_current_price_email] at hv
      | ok o =>
        cases o with
        | none => simp [get_current_price_email] at hv
        | some txt =>
          by_cases hemp : txt.isEmpty
          · simp [get_current_price_email, hemp] at hv
          · simp only [get_current_price_email, hemp, Bool.not_true, Bool.false_eq_true,
              if_false, Bool.if_false_right] at hv
            exact (extract_ok_nonneg txt v (by simpa using hv)).1
  · intro f v hv
    cases f with
    | error e => simp [get_current_price_sms] at hv
    | ok txt => exact (extract_ok_nonneg txt v (by simpa [get_current_price_sms] using hv)).1

/-- Witness for C7 on the e-mail variant's example text
`"Base Rent $2,671"`: extraction succeeds with the non-negative 2671,
taken from the match `"2,671"`. -/
theorem extraction_nonneg_or_error_witness :
    0 ≤ (2671 : ℚ) ∧
      ∃ g, searchPrice ['$', '2', ',', '6', '7', '1'] = some g ∧
        (2671 : ℚ) = ((digitsToNat (stripCommas g) : ℕ) : ℚ) :=
  (extraction_nonneg_or_error ['$', '2', ',', '6', '7', '1']).1 2671 (by decide)

/-! ## Claim C8: the unset threshold is 999999, not infinite -/

/-- Counterexample to C8 as stated: with `PRICE_THRESHOLD` unset the
effective threshold is the finite 999999, and the extractable price
$1,000,000 IS rejected by the threshold check in both variants — so it
is not true that no extracted price is ever rejected. -/
theorem default_threshold_rejects_a_price :
    PRICE_THRESHOLD_of none = some 999999 ∧
    extractPriceFromText ['$', '1', ',', '0', '0', '0', ',', '0', '0', '0'] = .ok 1000000 ∧
    shouldNotify_email 1000000 999999 none = false ∧
    shouldNotify_sms 1000000 999999 0 = false :=
  ⟨PRICE_THRESHOLD_of_unset, by decide, by decide, by decide⟩

/-- Claim C8 as amended: when `PRICE_THRESHOLD` is unset the effective
threshold is the finite default 999999; every extracted price up to
999999 passes the threshold check (and notifies when history allows),
while larger extractable prices are rejected. -/
theorem default_threshold_999999 (c : ℚ) (h : c ≤ 999999) :
    PRICE_THRESHOLD_of none = some 999999 ∧
    shouldNotify_email c 999999 none = true ∧
    shouldNotify_sms c 999999 0 = true := by
  have hnt : ¬ (999999 : ℚ) < c := not_lt.mpr h
  exact ⟨PRICE_THRESHOLD_of_unset, by simp [shouldNotify_email, hnt],
    by simp [shouldNotify_sms, hnt]⟩

/-- Witness for the amended C8 at the extracted price 2671. -/
theorem default_threshold_999999_witness :
    (2671 : ℚ) ≤ 999999 ∧
      (PRICE_THRESHOLD_of none = some 999999 ∧
        shouldNotify_email 2671 999999 none = true ∧
        shouldNotify_sms 2671 999999 0 = true) :=
  ⟨by decide, default_threshold_999999 2671 (by decide)⟩

/-! ## Claim C10: total state readers; the SMS zero sentinel -/

/-- Claim C10 (implicit): both `get_last_notified_price` variants are
total: a missing file or unparsable content yields the "absent" value
(`None` resp. the sentinel `0`) instead of raising.  In the SMS variant
a legitimately recorded price of exactly 0, and corrupt content, are
indistinguishable from "never notified", and with the sentinel last
price the decision notifies on every qualifying (below-threshold) run. -/
theorem state_readers_total_sms_sentinel (content : PyStr) (c t : ℚ)
    (hbad : parseFloat? (pyStrip content) = none) (hq : c ≤ t) :
    get_last_notified_price none = none ∧
    get_last_notified_price_sms none = 0 ∧
    get_last_notified_price (some content) = none ∧
    get_last_notified_price_sms (some content) = 0 ∧
    get_last_notified_price_sms (set_last_notified_price 0) = 0 ∧
    shouldNotify_sms c t 0 = true := by
  have hset : set_last_notified_price 0 = some ['0', '.', '0'] := by decide
  have hparts : parseFloatParts? ['0', '.', '0'] = some (false, ['0'], ['0']) := by decide
  have h0 : digitsToNat ['0'] = 0 := by decide
  refine ⟨rfl, rfl, ?_, ?_, ?_, ?_⟩
  · simp [get_last_notified_price, hbad]
  · simp [get_last_notified_price_sms, hbad]
  · rw [hset]
    show (parseFloat? (pyStrip ['0', '.', '0'])).getD 0 = 0
    have hstrip : pyStrip ['0', '.', '0'] = ['0', '.', '0'] := by decide
    rw [hstrip]
    simp [parseFloat?, hparts, partsVal_zeroFrac, h0]
  · simp [shouldNotify_sms, not_lt.mpr hq]

/-- Witness for C10 with the corrupt state-file content `"garb"` and the
qualifying run `current = 1 ≤ 2 = threshold`. -/
theorem state_readers_total_sms_sentinel_witness :
    parseFloat? (pyStrip ['g', 'a', 'r', 'b']) = none ∧ (1 : ℚ) ≤ 2 ∧
      (get_last_notified_price none = none ∧
        get_last_notified_price_sms none = 0 ∧
        get_last_notified_price (some ['g', 'a', 'r', 'b']) = none ∧
        get_last_notified_price_sms (some ['g', 'a', 'r', 'b']) = 0 ∧
        get_last_notified_price_sms (set_last_notified_price 0) = 0 ∧
        shouldNotify_sms 1 2 0 = true) :=
  ⟨by decide, by decide,
    state_readers_total_sms_sentinel ['g', 'a', 'r', 'b'] 1 2 (by decide) (by decide)⟩

/-! ## Claim C9: round-trip through the decimal string representation -/

/-- Reading back the digit written for a value below ten. -/
theorem digitVal_digitChar (m : Nat) (h : m < 10) : digitVal (Nat.digitChar m) = m := by
  interval_cases m <;> decide

/-- A digit character written by `Nat.digitChar` for a value below ten is
a decimal digit and is none of the characters the float grammar treats
specially. -/
theorem digitChar_props (m : Nat) (h : m < 10) :
    (Nat.digitChar m).isDigit = true ∧ isPySpace (Nat.digitChar m) = false ∧
    Nat.digitChar m ≠ '-' ∧ Nat.digitChar m ≠ '+' := by
  interval_cases m <;> refine ⟨by decide, by decide, by decide, by decide⟩

/-- Every character of `natReprAux` is a digit character of a value below
ten. -/
theorem natReprAux_mem (fuel : Nat) :
    ∀ n c, c ∈ natReprAux fuel n → ∃ m, m < 10 ∧ c = Nat.digitChar m := by
  induction fuel with
  | zero => intro n c hc; simp [natReprAux] at hc
  | succ k ih =>
    intro n c hc
    simp only [natReprAux] at hc
    by_cases h : n < 10
    · rw [if_pos h] at hc
      simp only [List.mem_singleton] at hc
      exact ⟨n, h, hc⟩
    · rw [if_neg h] at hc
      rcases List.mem_append.mp hc with h1 | h2
      · exact ih (n / 10) c h1
      · simp only [List.mem_singleton] at h2
        exact ⟨n % 10, Nat.mod_lt _ (by omega), h2⟩

/-- `natReprAux` with positive fuel is never empty. -/
theorem natReprAux_ne_nil (fuel n : Nat) : natReprAux (fuel + 1) n ≠ [] := by
  simp only [natReprAux]
  by_cases h : n < 10
  · simp [if_pos h]
  · simp [if_neg h]

/-- Appending one digit multiplies the value by ten and adds the digit. -/
theorem digitsToNat_append_digit (xs : PyStr) (c : Char) :
    digitsToNat (xs ++ [c]) = 10 * digitsToNat xs + digitVal c := by
  simp [digitsToNat, List.foldl_append]

/-- With sufficient fuel, reading back the written digits recovers `n`. -/
theorem digitsToNat_natReprAux (fuel : Nat) :
    ∀ n, n < fuel → digitsToNat (natReprAux fuel n) = n := by
  induction fuel with
  | zero => intro n h; omega
  | succ k ih =>
    intro n h
    simp only [natReprAux]
    by_cases h10 : n < 10
    · rw [if_pos h10]
      show digitsToNat ([] ++ [Nat.digitChar n]) = n
      rw [digitsToNat_append_digit, digitVal_digitChar n h10]
      simp [digitsToNat]
    · rw [if_neg h10]
      rw [digitsToNat_append_digit, digitVal_digitChar (n % 10) (Nat.mod_lt _ (by omega))]
      rw [ih (n / 10) (by omega)]
      omega

/-- Reading back the written digits recovers `n`. -/
theorem digitsToNat_natRepr (n : Nat) : digitsToNat (natRepr n) = n :=
  digitsToNat_natReprAux (n + 1) n (by omega)

/-- `takeWhile` passes over a block whose characters all satisfy `p`. -/
theorem takeWhile_append_all (p : Char → Bool) (l r : PyStr)
    (h : ∀ c ∈ l, p c = true) :
    (l ++ r).takeWhile p = l ++ r.takeWhile p := by
  induction l with
  | nil => simp
  | cons c cs ih =>
    have hc : p c = true := h c (by simp)
    simp only [List.cons_append, List.takeWhile_cons, hc, if_true]
    rw [ih fun d hd => h d (by simp [hd])]

/-- `dropWhile` passes over a block whose characters all satisfy `p`. -/
theorem dropWhile_append_all (p : Char → Bool) (l r : PyStr)
    (h : ∀ c ∈ l, p c = true) :
    (l ++ r).dropWhile p = r.dropWhile p := by
  induction l with
  | nil => simp
  | cons c cs ih =>
    have hc : p c = true := h c (by simp)
    simp only [List.cons_append, List.dropWhile_cons, hc, if_true]
    exact ih fun d hd => h d (by simp [hd])

/-- Every character of `natRepr n` is a decimal digit. -/
theorem natRepr_all_digits (n : Nat) : ∀ c ∈ natRepr n, c.isDigit = true := by
  intro c hc
  obtain ⟨m, hm, rfl⟩ := natReprAux_mem (n + 1) n c hc
  exact (digitChar_props m hm).1

/-- The exact string `set_last_notified_price` writes for an integral
non-negative price: the digits followed by `".0"`. -/
theorem set_last_notified_price_natCast (n : ℕ) :
    set_last_notified_price (n : ℚ) = some (natRepr n ++ ['.', '0']) := by
  have hden : ((n : ℚ)).den = 1 := Rat.den_natCast n
  have hnum : ((n : ℚ)).num = (n : ℤ) := Rat.num_natCast n
  have hneg : ¬ ((n : ℚ) < 0) := not_lt.mpr (Nat.cast_nonneg n)
  simp [set_last_notified_price, floatStr, hden, hnum, hneg]

/-- Stripping whitespace from a written price string changes nothing. -/
theorem pyStrip_natRepr (n : ℕ) :
    pyStrip (natRepr n ++ ['.', '0']) = natRepr n ++ ['.', '0'] := by
  obtain ⟨c, cs, hcons⟩ := List.exists_cons_of_ne_nil (natReprAux_ne_nil n n)
  have hc : isPySpace c = false := by
    obtain ⟨m, hm, rfl⟩ := natReprAux_mem (n + 1) n c (by simp [natRepr, hcons])
    exact (digitChar_props m hm).2.1
  unfold pyStrip
  have h1 : (natRepr n ++ ['.', '0']).dropWhile isPySpace = natRepr n ++ ['.', '0'] := by
    simp only [natRepr, hcons, List.cons_append]
    simp [List.dropWhile_cons, hc]
  rw [h1, List.reverse_append]
  show (('0' :: '.' :: (natRepr n).reverse).dropWhile isPySpace).reverse = _
  rw [List.dropWhile_cons]
  norm_num [show isPySpace '0' = false from by decide]

/-- Parsing the written price string recovers the parts exactly. -/
theorem parseFloatParts_natRepr (n : ℕ) :
    parseFloatParts? (natRepr n ++ ['.', '0']) = some (false, natRepr n, ['0']) := by
  obtain ⟨c, cs, hcons⟩ := List.exists_cons_of_ne_nil (natReprAux_ne_nil n n)
  have hmem : c ∈ natRepr n := by simp [natRepr, hcons]
  obtain ⟨m, hm, hcm⟩ := natReprAux_mem (n + 1) n c hmem
  have hprops := digitChar_props m hm
  have hsign : splitSign (natRepr n ++ ['.', '0']) = (false, natRepr n ++ ['.', '0']) := by
    simp only [natRepr, hcons, List.cons_append, splitSign]
    rw [if_neg (by rw [hcm]; exact hprops.2.2.1), if_neg (by rw [hcm]; exact hprops.2.2.2)]
  have htake : (natRepr n ++ ['.', '0']).takeWhile Char.isDigit = natRepr n := by
    rw [takeWhile_append_all Char.isDigit _ _ (natRepr_all_digits n)]
    simp [List.takeWhile_cons, show ('.'.isDigit : Bool) = false from by decide]
  have hdrop : (natRepr n ++ ['.', '0']).dropWhile Char.isDigit = ['.', '0'] := by
    rw [dropWhile_append_all Char.isDigit _ _ (natRepr_all_digits n)]
    simp [List.dropWhile_cons, show ('.'.isDigit : Bool) = false from by decide]
  have hne : (natRepr n).isEmpty = false := by
    simp only [natRepr, hcons]; rfl
  simp only [parseFloatParts?, hsign, htake, hdrop]
  norm_num [hne, show List.takeWhile Char.isDigit ['0'] = ['0'] from by decide,
    show List.dropWhile Char.isDigit ['0'] = [] from by decide]

/-- Claim C9: for every valid price value (the non-negative integral
values price extraction produces), writing it with
`set_last_notified_price` and reading it back with
`get_last_notified_price` — in either variant — yields the same numeric
value, via the decimal string `"n.0"`. -/
theorem state_write_read_roundtrip (n : ℕ) :
    get_last_notified_price (set_last_notified_price (n : ℚ)) = some ((n : ℚ)) ∧
    get_last_notified_price_sms (set_last_notified_price (n : ℚ)) = (n : ℚ) := by
  have hval : parseFloat? (pyStrip (natRepr n ++ ['.', '0'])) = some ((n : ℚ)) := by
    rw [pyStrip_natRepr]
    simp [parseFloat?, parseFloatParts_natRepr, partsVal_zeroFrac, digitsToNat_natRepr]
  rw [set_last_notified_price_natCast]
  exact ⟨hval, by simp [get_last_notified_price_sms, hval]⟩

/-! ## Claim C4: persistence happens only after a successful send -/

/-- Claim C4: in every run of either variant, either no notification was
sent and the persisted state file is exactly the input one (price above
threshold, non-improving price, extraction failure, notifier failure —
including the SMS variant's uncaught send exception), or a notification
was sent, which requires the transport (and, for email, the settings
check inside `send_email`) to have succeeded, and the state is
overwritten with the extracted current price. -/
theorem persist_only_after_send (t : ℚ) (u tw ec tr so : Bool)
    (fe : Except String (Option PyStr)) (fsS : Except String PyStr) (fs : FileState) :
    ((mainEmail t u fe ec tr fs).state = fs ∧ (mainEmail t u fe ec tr fs).notified = false ∨
      ((mainEmail t u fe ec tr fs).notified = true ∧ ec = true ∧ tr = true ∧
        ∃ c, get_current_price_email u fe = .ok c ∧
          (mainEmail t u fe ec tr fs).state = set_last_notified_price c)) ∧
    ((mainSMS t u tw fsS so fs).state = fs ∧ (mainSMS t u tw fsS so fs).notified = false ∨
      ((mainSMS t u tw fsS so fs).notified = true ∧ so = true ∧
        ∃ c, get_current_price_sms fsS = .ok c ∧
          (mainSMS t u tw fsS so fs).state = set_last_notified_price c)) := by
  constructor
  · cases hE : get_current_price_email u fe with
    | error e => exact Or.inl (by simp [mainEmail, hE])
    | ok c =>
      by_cases h1 : t < c
      · exact Or.inl (by simp [mainEmail, hE, h1])
      · cases hL : get_last_notified_price fs with
        | some l =>
          by_cases h2 : l ≤ c
          · exact Or.inl (by simp [mainEmail, hE, h1, hL, h2])
          · by_cases h3 : (ec && tr) = true
            · obtain ⟨he, ht⟩ : ec = true ∧ tr = true := by simpa using h3
              exact Or.inr ⟨by simp [mainEmail, hE, h1, hL, h2, h3], he, ht, c, rfl,
                by simp [mainEmail, hE, h1, hL, h2, h3]⟩
            · exact Or.inl (by simp [mainEmail, hE, h1, hL, h2, h3])
        | none =>
          by_cases h3 : (ec && tr) = true
          · obtain ⟨he, ht⟩ : ec = true ∧ tr = true := by simpa using h3
            exact Or.inr ⟨by simp [mainEmail, hE, h1, hL, h3], he, ht, c, rfl,
              by simp [mainEmail, hE, h1, hL, h3]⟩
          · exact Or.inl (by simp [mainEmail, hE, h1, hL, h3])
  · cases u with
    | false => exact Or.inl (by simp [mainSMS])
    | true =>
      cases tw with
      | false => exact Or.inl (by simp [mainSMS])
      | true =>
        cases hE : get_current_price_sms fsS with
        | error e => exact Or.inl (by simp [mainSMS, hE])
        | ok c =>
          by_cases h1 : t < c
          · exact Or.inl (by simp [mainSMS, hE, h1])
          · by_cases h2 : get_last_notified_price_sms fs ≠ 0 ∧
                get_last_notified_price_sms fs ≤ c
            · exact Or.inl (by simp [mainSMS, hE, h1, h2])
            · cases so with
              | false => exact Or.inl (by simp [mainSMS, hE, h1, h2])
              | true =>
                exact Or.inr ⟨by simp [mainSMS, hE, h1, h2], rfl, c, rfl,
                  by simp [mainSMS, hE, h1, h2]⟩

/-! ## Claim C5: fatal configuration abort — SMS variant only -/

/-- Counterexample to C5 as stated: in the email variant, absent
configuration does NOT stop the program with a non-zero exit.  With
`APARTMENT_URL` unset the run prints a diagnostic and exits 0; with the
email settings missing (`emailCfgOk = false`) the run proceeds through
fetch and decision, fails inside `send_email`, prints a diagnostic and
exits 0. -/
theorem email_config_missing_not_fatal :
    mainEmail 999999 false (.ok none) false false none =
      ⟨0, [.errorFetching], none, false⟩ ∧
    mainEmail 999999 true (.ok (some ['$', '2', ',', '6', '7', '1'])) false true none =
      ⟨0, [.currentPrice 2671, .sendingEmail, .failedSendEmail], none, false⟩ := by
  constructor <;> decide

/-- Claim C5 as amended: only the SMS variant aborts fatally on missing
configuration — unset `APARTMENT_URL` or incomplete Twilio settings exit
with code 1 before fetching (the result does not depend on the fetch
input), distinct from the recoverable zero-exit failures.  The email
variant treats missing configuration as a recoverable per-run failure:
it prints a diagnostic and exits 0 with the state unchanged. -/
theorem config_abort_sms_only (t : ℚ) (smsOk tw ec tr : Bool)
    (fsS : Except String PyStr) (fe : Except String (Option PyStr)) (fs : FileState) :
    mainSMS t false tw fsS smsOk fs = ⟨1, [.cfgUrlAbort], fs, false⟩ ∧
    mainSMS t true false fsS smsOk fs = ⟨1, [.cfgTwilioAbort], fs, false⟩ ∧
    mainEmail t false fe ec tr fs = ⟨0, [.errorFetching], fs, false⟩ ∧
    (mainEmail t true fe false tr fs).exitCode = 0 ∧
    (mainEmail t true fe false tr fs).notified = false ∧
    (mainEmail t true fe false tr fs).state = fs := by
  refine ⟨by simp [mainSMS], by simp [mainSMS],
    by simp [mainEmail, get_current_price_email], ?_, ?_, ?_⟩ <;>
  · cases hE : get_current_price_email true fe with
    | error e => simp [mainEmail, hE]
    | ok c =>
      by_cases h1 : t < c
      · simp [mainEmail, hE, h1]
      · cases hL : get_last_notified_price fs with
        | some l =>
          by_cases h2 : l ≤ c <;> simp [mainEmail, hE, h1, hL, h2]
        | none => simp [mainEmail, hE, h1, hL]

/-! ## Claim C6: non-fatal failures — except the SMS send -/

/-- Counterexample to C6 as stated: a failing SMS send is fatal.
`send_sms` is not wrapped in `try` in `src/main.py`, so a Twilio failure
propagates as an uncaught exception and the process exits non-zero (and
without the script's own diagnostic). -/
theorem sms_send_failure_exits_nonzero :
    mainSMS 999999 true true (.ok ['$', '2', ',', '6', '7', '1']) false none =
      ⟨1, [.currentPrice 2671, .sendingSms], none, false⟩ := by decide

/-- Claim C6 as amended: a fetch or extraction failure is non-fatal in
both variants (diagnostic printed, exit 0, state unchanged), and a
failing email send is non-fatal in the email variant (exit 0, state
unchanged); but a failing SMS send in the SMS variant exits non-zero
(state still unchanged, no notification recorded). -/
theorem fetch_notify_failures_mostly_nonfatal (t : ℚ) (e : String)
    (u tw ec smsOk : Bool) (fe : Except String (Option PyStr))
    (fsS : Except String PyStr) (fs : FileState) :
    mainSMS t true true (.error e) smsOk fs = ⟨0, [.errorFetching], fs, false⟩ ∧
    mainEmail t true (.error e) ec smsOk fs = ⟨0, [.errorFetching], fs, false⟩ ∧
    (mainEmail t u fe ec false fs).exitCode = 0 ∧
    (mainEmail t u fe ec false fs).notified = false ∧
    (mainEmail t u fe ec false fs).state = fs ∧
    (mainSMS t u tw fsS false fs).notified = false ∧
    (mainSMS t u tw fsS false fs).state = fs := by
  have hemail : (mainEmail t u fe ec false fs).exitCode = 0 ∧
      (mainEmail t u fe ec false fs).notified = false ∧
      (mainEmail t u fe ec false fs).state = fs := by
    cases hE : get_current_price_email u fe with
    | error e2 => simp [mainEmail, hE]
    | ok c =>
      by_cases h1 : t < c
      · simp [mainEmail, hE, h1]
      · cases hL : get_last_notified_price fs with
        | some l => by_cases h2 : l ≤ c <;> simp [mainEmail, hE, h1, hL, h2]
        | none => simp [mainEmail, hE, h1, hL]
  have hsms : (mainSMS t u tw fsS false fs).notified = false ∧
      (mainSMS t u tw fsS false fs).state = fs := by
    cases u with
    | false => simp [mainSMS]
    | true =>
      cases tw with
      | false => simp [mainSMS]
      | true =>
        cases hE : get_current_price_sms fsS with
        | error e2 => simp [mainSMS, hE]
        | ok c =>
          by_cases h1 : t < c
          · simp [mainSMS, hE, h1]
          · by_cases h2 : get_last_notified_price_sms fs ≠ 0 ∧
                get_last_notified_price_sms fs ≤ c <;>
              simp [mainSMS, hE, h1, h2]
  exact ⟨by simp [mainSMS, get_current_price_sms],
    by simp [mainEmail, get_current_price_email],
    hemail.1, hemail.2.1, hemail.2.2, hsms.1, hsms.2⟩
